import Mathlib

/-!
Verification development for the llm-report metering proxy worker.

The worker proxies OpenAI-style HTTP requests: it authenticates callers,
deduplicates identical requests via a content-addressed cache, forwards
uncached requests upstream, and records every request/response pair in a
Postgres table using a two-phase protocol (provisional insert, terminal
update).  The definitions below are a shallow embedding of the TypeScript
sources; platform capabilities (crypto.subtle SHA-256, the tokenizer
libraries, the Workers cache store, the Postgres client, fetch) are taken
as explicit function parameters, and JavaScript runtime behaviour
(JSON.parse, string coercion, thrown exceptions) is modelled explicitly.
Thrown exceptions are modelled as Except.error.
-/

/-! ## JavaScript string primitives -/

/-- JavaScript String.prototype.split with a single-character separator,
over the character list of the string.  "a\nb".split gives two segments,
a trailing separator yields a trailing empty segment, and splitting the
empty string yields one empty segment. -/
def splitChar (sep : Char) : List Char → List (List Char)
  | [] => [[]]
  | c :: cs =>
    let r := splitChar sep cs
    if c = sep then [] :: r
    else
      match r with
      | [] => [[c]]
      | h :: t => (c :: h) :: t

/-- Remove the first occurrence of the pattern from the list, if any:
the character-level core of JavaScript s.replace(pat, ""). -/
def removeFirst (pat : List Char) : List Char → List Char
  | [] => []
  | c :: cs =>
    if pat.isPrefixOf (c :: cs) then (c :: cs).drop pat.length
    else c :: removeFirst pat cs

/-- JavaScript s.replace(pat, "") for a plain-string pattern: only the
first occurrence is replaced. -/
def replaceFirst (s : String) (pat : String) : String :=
  String.mk (removeFirst pat.data s.data)

/-- Helper for substring containment. -/
def containsAux (pat : List Char) : List Char → Bool
  | [] => pat.isEmpty
  | c :: cs => pat.isPrefixOf (c :: cs) || containsAux pat cs

/-- JavaScript String.prototype.includes. -/
def jsIncludes (s sub : String) : Bool :=
  containsAux sub.data s.data

/-- First segment of JavaScript s.split("\n\n"): the characters up to the
first occurrence of two consecutive newlines.  The source only ever uses
index [0] of that split. -/
def takeUntilDoubleNL : List Char → List Char
  | [] => []
  | c :: cs =>
    if ('\n' :: ['\n']).isPrefixOf (c :: cs) then []
    else c :: takeUntilDoubleNL cs

/-! ## A model of JSON.parse and JavaScript value coercion

JSON values as parsed by JSON.parse.  Numbers keep their source lexeme
(the claims never inspect numeric values).  Duplicate object keys are not
collapsed; lookups take the first binding (the inputs exercised by the
claims have no duplicate keys). -/

inductive Json where
  | null
  | bool (b : Bool)
  | num (lit : String)
  | str (s : String)
  | arr (elems : List Json)
  | obj (fields : List (String × Json))

/-- Property access j.k on a parsed JSON value: some value if j is an
object with field k, otherwise undefined (none). -/
def Json.getField : Json → String → Option Json
  | .obj fs, k => (fs.find? (fun p => p.1 == k)).map (fun p => p.2)
  | _, _ => none

/-- Index access j[i]: some value if j is an array with an element at i,
otherwise undefined (none). -/
def Json.getIndex : Json → Nat → Option Json
  | .arr xs, i => xs.get? i
  | _, _ => none

/-- JavaScript falsiness of a JSON value (undefined is handled at use
sites as Option.none). -/
def jsFalsy : Json → Bool
  | .null => true
  | .bool b => !b
  | .num l => l == "0" || l == "-0"
  | .str s => s == ""
  | _ => false

mutual

/-- JavaScript ToString coercion of a parsed JSON value, as performed for
example by TextEncoder.prototype.encode on a non-string argument.  A plain
object coerces to the fixed text "[object Object]". -/
def jsToString : Json → String
  | .null => "null"
  | .bool b => if b then "true" else "false"
  | .num l => l
  | .str s => s
  | .arr xs => jsToStringList xs
  | .obj _ => "[object Object]"

/-- Array.prototype.join "," used by array coercion; null elements render
as the empty string. -/
def jsToStringList : List Json → String
  | [] => ""
  | [Json.null] => ""
  | [x] => jsToString x
  | Json.null :: y :: xs => "," ++ jsToStringList (y :: xs)
  | x :: y :: xs => jsToString x ++ "," ++ jsToStringList (y :: xs)

end

/-! ### JSON.parse -/

def jsonWs : List Char := [' ', '\t', '\n', '\r']

def skipWs (l : List Char) : List Char :=
  l.dropWhile (fun c => jsonWs.contains c)

/-- Open and close braces, named to keep string literals brace-free. -/
def braceL : Char := Char.ofNat 123

def braceR : Char := Char.ofNat 125

/-- Value of one hex digit of a \u escape, by code point. -/
def hexVal (c : Char) : Option Nat :=
  let n := c.toNat
  if 48 ≤ n && n ≤ 57 then some (n - 48)
  else if 97 ≤ n && n ≤ 102 then some (n - 87)
  else if 65 ≤ n && n ≤ 70 then some (n - 55)
  else none

def escChar (c : Char) : Option Char :=
  if c = '"' then some '"'
  else if c = '\\' then some '\\'
  else if c = '/' then some '/'
  else if c = 'b' then some (Char.ofNat 8)
  else if c = 'f' then some (Char.ofNat 12)
  else if c = 'n' then some '\n'
  else if c = 'r' then some '\r'
  else if c = 't' then some '\t'
  else none

/-- Body of a JSON string literal, after the opening quote: returns the
decoded characters and the input remaining after the closing quote. -/
def parseStringBody : List Char → Option (List Char × List Char)
  | [] => none
  | c :: cs =>
    if c = '"' then some ([], cs)
    else if c = '\\' then
      match cs with
      | [] => none
      | e :: cs2 =>
        if e = 'u' then
          match cs2 with
          | h1 :: h2 :: h3 :: h4 :: cs3 =>
            match hexVal h1, hexVal h2, hexVal h3, hexVal h4 with
            | some a, some b, some c2, some d =>
              (parseStringBody cs3).map
                (fun p => (Char.ofNat (((a * 16 + b) * 16 + c2) * 16 + d) :: p.1, p.2))
            | _, _, _, _ => none
          | _ => none
        else
          match escChar e with
          | some ec => (parseStringBody cs2).map (fun p => (ec :: p.1, p.2))
          | none => none
    else (parseStringBody cs).map (fun p => (c :: p.1, p.2))

def takeDigits (l : List Char) : List Char × List Char :=
  (l.takeWhile Char.isDigit, l.dropWhile Char.isDigit)

/-- Optional exponent part of a JSON number; returns the lexeme consumed
(empty if the input does not start a well-formed exponent). -/
def parseExpPart (l : List Char) : List Char × List Char :=
  match l with
  | [] => ([], l)
  | c :: r =>
    if c = 'e' || c = 'E' then
      match r with
      | s :: r2 =>
        if s = '+' || s = '-' then
          let p := takeDigits r2
          if p.1.isEmpty then ([], l) else (c :: s :: p.1, p.2)
        else
          let p := takeDigits r
          if p.1.isEmpty then ([], l) else (c :: p.1, p.2)
      | [] => ([], l)
    else ([], l)

/-- Unsigned JSON number: digits, optional fraction, optional exponent. -/
def parseNumberCore (l : List Char) : Option (List Char × List Char) :=
  let p := takeDigits l
  if p.1.isEmpty then none
  else
    match p.2 with
    | '.' :: r =>
      let q := takeDigits r
      if q.1.isEmpty then none
      else
        let e := parseExpPart q.2
        some (p.1 ++ '.' :: q.1 ++ e.1, e.2)
    | _ =>
      let e := parseExpPart p.2
      some (p.1 ++ e.1, e.2)

/-- JSON number lexeme, with optional leading minus. -/
def parseNumberLex (l : List Char) : Option (List Char × List Char) :=
  match l with
  | '-' :: r =>
    match parseNumberCore r with
    | some (ds, rest) => some ('-' :: ds, rest)
    | none => none
  | _ => parseNumberCore l

mutual

/-- Fueled JSON value recogniser; fuel only bounds recursion depth and is
always supplied generously by parseJson. -/
def parseValue : Nat → List Char → Option (Json × List Char)
  | 0, _ => none
  | Nat.succ fuel, l =>
    match skipWs l with
    | [] => none
    | c :: cs =>
      if c = '"' then
        (parseStringBody cs).map (fun p => (Json.str (String.mk p.1), p.2))
      else if c = braceL then
        match skipWs cs with
        | c2 :: r => if c2 = braceR then some (Json.obj [], r) else parseObjRest fuel cs []
        | [] => none
      else if c = '[' then
        match skipWs cs with
        | ']' :: r => some (Json.arr [], r)
        | _ => parseArrRest fuel cs []
      else if "true".data.isPrefixOf (c :: cs) then
        some (Json.bool true, (c :: cs).drop 4)
      else if "false".data.isPrefixOf (c :: cs) then
        some (Json.bool false, (c :: cs).drop 5)
      else if "null".data.isPrefixOf (c :: cs) then
        some (Json.null, (c :: cs).drop 4)
      else
        match parseNumberLex (c :: cs) with
        | some (lex, rest) => some (Json.num (String.mk lex), rest)
        | none => none

/-- Members of a JSON object, positioned before a key. -/
def parseObjRest : Nat → List Char → List (String × Json) → Option (Json × List Char)
  | 0, _, _ => none
  | Nat.succ fuel, l, acc =>
    match skipWs l with
    | '"' :: cs =>
      match parseStringBody cs with
      | none => none
      | some (k, r1) =>
        match skipWs r1 with
        | ':' :: r2 =>
          match parseValue fuel r2 with
          | none => none
          | some (v, r3) =>
            match skipWs r3 with
            | ',' :: r4 => parseObjRest fuel r4 (acc ++ [(String.mk k, v)])
            | c :: r4 =>
              if c = braceR then some (Json.obj (acc ++ [(String.mk k, v)]), r4) else none
            | [] => none
        | _ => none
    | _ => none

/-- Elements of a JSON array, positioned before a value. -/
def parseArrRest : Nat → List Char → List Json → Option (Json × List Char)
  | 0, _, _ => none
  | Nat.succ fuel, l, acc =>
    match parseValue fuel l with
    | none => none
    | some (v, r) =>
      match skipWs r with
      | ',' :: r2 => parseArrRest fuel r2 (acc ++ [v])
      | ']' :: r2 => some (Json.arr (acc ++ [v]), r2)
      | _ => none

end

/-- Model of JSON.parse: none models a thrown SyntaxError.  Trailing
non-whitespace input is rejected, as in JavaScript. -/
def parseJson (s : String) : Option Json :=
  match parseValue (2 * s.length + 2) s.data with
  | some (j, rest) => if (skipWs rest).isEmpty then some j else none
  | none => none

/-! ## HTTP model

Headers are ordered name/value pairs; lookup is case-insensitive as in the
Fetch API.  A URL is split into origin, pathname and search; href is the
serialisation used both for cache addressing and by getUrl. -/

/-- Character-level lower-casing (String.toLower over the data list). -/
def lowerStr (s : String) : String :=
  String.mk (s.data.map Char.toLower)

def hget (hs : List (String × String)) (name : String) : Option String :=
  (hs.find? (fun p => lowerStr p.1 == lowerStr name)).map (fun p => p.2)

/-- Headers.prototype.set: replace the value case-insensitively, or append. -/
def hset (hs : List (String × String)) (name v : String) : List (String × String) :=
  if hs.any (fun p => lowerStr p.1 == lowerStr name) then
    hs.map (fun p => if lowerStr p.1 == lowerStr name then (p.1, v) else p)
  else hs ++ [(name, v)]

structure HttpUrl where
  origin : String
  pathname : String
  search : String
deriving DecidableEq

def HttpUrl.href (u : HttpUrl) : String :=
  u.origin ++ u.pathname ++ u.search

/-- An inbound request as seen by the worker: parsed URL, method, headers
and the raw body text. -/
structure Request where
  url : HttpUrl
  method : String
  headers : List (String × String)
  bodyText : String
deriving DecidableEq

structure Response where
  status : Nat
  statusText : String
  headers : List (String × String)
  body : String
deriving DecidableEq

/-! ## src/lib.ts -/

/-- getUrl: upstream endpoint from the original request URL. -/
def getUrl (req : Request) : String :=
  "https://api.openai.com" ++ req.url.pathname ++ req.url.search

/-- The Message type of src/lib.ts (role and content are required by the
declared type; name and function_call are optional). -/
structure Message where
  role : String
  content : String
  name : Option String := none
  function_call : Option String := none
deriving DecidableEq

/-- The token-sum loop of numTokensFromMessages: per message, the fixed
per-message overhead plus the tokenised length of every present field
value in Object.entries order (role, content, name, function_call), with
the per-name overhead added when a name key is present; plus the final +3
assistant-priming overhead.  The tokenizer is the opaque capability
tokenize(text) -> count. -/
def messagesTokenSum (tok : String → Int) (tpm tpn : Int) (messages : List Message) : Int :=
  (messages.foldl
    (fun acc m =>
      acc + tpm + tok m.role + tok m.content +
        (match m.name with
         | some n => tok n + tpn
         | none => 0) +
        (match m.function_call with
         | some f => tok f
         | none => 0))
    0) + 3

def chatModelsNewer : List String :=
  ["gpt-3.5-turbo-0613", "gpt-3.5-turbo-16k-0613", "gpt-4-0314",
   "gpt-4-32k-0314", "gpt-4-0613", "gpt-4-32k-0613"]

/-- numTokensFromMessages (src/lib.ts, synchronous variant): model-family
dispatch with recursive fallback for unlisted gpt-3.5-turbo / gpt-4
identifiers; an identifier matching no family throws (modelled as
Except.error). -/
def numTokensFromMessages (tok : String → Int) (messages : List Message)
    (model : String := "gpt-3.5-turbo-0613") : Except Unit Int :=
  if model ∈ chatModelsNewer then
    .ok (messagesTokenSum tok 3 1 messages)
  else if model = "gpt-3.5-turbo-0301" then
    .ok (messagesTokenSum tok 4 (-1) messages)
  else if jsIncludes model "gpt-3.5-turbo" then
    numTokensFromMessages tok messages "gpt-3.5-turbo-0613"
  else if jsIncludes model "gpt-4" then
    numTokensFromMessages tok messages "gpt-4-0613"
  else
    .error ()
termination_by (if model ∈ chatModelsNewer then 0 else 1)
decreasing_by
  all_goals simp_all
  all_goals decide

/-- The expression parsed.choices[0].delta.content with the JavaScript
|| "" fallback: property access on undefined throws (Except.error);
a missing or falsy content yields the empty string, any other value is
string-coerced before concatenation. -/
def deltaContentOf (j : Json) : Except Unit String :=
  match j.getField "choices" with
  | none => .error ()
  | some ch =>
    match ch.getIndex 0 with
    | none => .error ()
    | some c0 =>
      match c0.getField "delta" with
      | none => .error ()
      | some d =>
        match d.getField "content" with
        | none => .ok ""
        | some v => .ok (if jsFalsy v then "" else jsToString v)

/-- JSON.parse of one event frame followed by the delta-content
extraction; a SyntaxError or TypeError aborts with Except.error. -/
def frameContent (e : String) : Except Unit String :=
  match parseJson e with
  | none => .error ()
  | some j => deltaContentOf j

/-- getCompletionFromStream (src/lib.ts): empty input returns ""; the
input is split on newlines, empty lines are dropped, the final event is
discarded (slice(0,-1)), each remaining event has its first "data: "
occurrence removed and is then JSON.parsed; any frame the parse or the
choices[0].delta.content access throws on aborts the whole call. -/
def getCompletionFromStream (stream : String) : Except Unit String :=
  if stream = "" then .ok ""
  else
    let events := ((splitChar '\n' stream.data).filter (fun e => 0 < e.length)).dropLast
    events.foldlM
      (fun acc ev => (frameContent (String.mk (removeFirst "data: ".data ev))).map
        (fun c => acc ++ c))
      ""

/-! ## Cache coordinator (src/index.ts) -/

def CACHE_AGE : Nat := 60 * 60 * 24 * 30

/-- The GET request generateCacheKey builds: the original URL with the
body hash appended to the pathname, carrying the caller's headers. -/
structure CacheKeyRequest where
  url : HttpUrl
  method : String
  headers : List (String × String)
deriving DecidableEq

/-- generateCacheKey: sha256 is the platform digest capability; the body
argument is whatever value the caller passes (the orchestrator passes the
parsed body object, string-coerced at the TextEncoder boundary before
hashing). -/
def generateCacheKey (sha256 : String → String) (url : HttpUrl) (body : String)
    (headers : List (String × String)) : CacheKeyRequest :=
  { url := { url with pathname := url.pathname ++ "/" ++ sha256 body }
    method := "GET"
    headers := headers }

/-- The URL string under which the cache entry is addressed (the Workers
cache matches GET requests by URL). -/
def derivedCacheKeyUrl (sha256 : String → String) (url : HttpUrl) (body : String)
    (headers : List (String × String)) : String :=
  (generateCacheKey sha256 url body headers).url.href

/-- The request sent upstream on a cache miss: the upstream URL, the
original method and raw body, and a freshly built header set holding
exactly Content-Type, Authorization and X-Api-Key.  A missing original
header surfaces as the string "null" (Headers.prototype.set coerces the
null returned by Headers.prototype.get). -/
structure UpstreamRequest where
  url : String
  method : String
  headers : List (String × String)
  body : String
deriving DecidableEq

def forwardedRequest (req : Request) (url : String) : UpstreamRequest :=
  { url := url
    method := req.method
    headers :=
      [("Content-Type", "application/json"),
       ("Authorization", (hget req.headers "Authorization").getD "null"),
       ("X-Api-Key", (hget req.headers "X-Api-Key").getD "null")]
    body := req.bodyText }

/-- Observable side effects of one request, in program order. -/
inductive Op where
  | dbInsert (id : String)
  | dbUpdate (id : String)
  | upstreamFetch (url : String)
  | cachePut (key : String)
deriving DecidableEq

/-- Response returned on a miss: the upstream status/headers/body with the
cache-control header set before the copy is stored. -/
def withCacheControl (r : Response) : Response :=
  { r with headers := hset r.headers "cache-control" ("public, max-age=" ++ toString CACHE_AGE) }

structure HandleRes where
  response : Response
  cached : Bool
deriving DecidableEq

/-- handleCaching (src/index.ts): derive the key, look it up; on a hit
return the stored response with cached := true; on a miss forward the
minimal request upstream, stamp cache-control, store a copy under the key
and return it with cached := false.  The upstream fetch is NOT wrapped in
try/catch in this variant: a transport error (Except.error from the fetch
capability) propagates to the caller.  The first component lists the side
effects that occurred. -/
def handleCaching (sha256 : String → String) (cache : String → Option Response)
    (upstream : UpstreamRequest → Except Unit Response) (req : Request) (body : String)
    (headers : List (String × String)) (url : String) :
    List Op × Except Unit HandleRes :=
  let key := derivedCacheKeyUrl sha256 req.url body headers
  match cache key with
  | some r => ([], .ok { response := r, cached := true })
  | none =>
    match upstream (forwardedRequest req url) with
    | .error e => ([.upstreamFetch url], .error e)
    | .ok o =>
      let resp := withCacheControl o
      ([.upstreamFetch url, .cachePut key], .ok { response := resp, cached := false })

/-- handleCaching as in the sibling implementation (src/unnamed/part_001):
identical except that the upstream fetch is wrapped in try/catch, and a
transport error yields a synthetic 500 response with cached := false and
no cache write. -/
def handleCachingV1 (sha256 : String → String) (cache : String → Option Response)
    (upstream : UpstreamRequest → Except Unit Response) (req : Request) (body : String)
    (headers : List (String × String)) (url : String) :
    List Op × Except Unit HandleRes :=
  let key := derivedCacheKeyUrl sha256 req.url body headers
  match cache key with
  | some r => ([], .ok { response := r, cached := true })
  | none =>
    match upstream (forwardedRequest req url) with
    | .error _ =>
      ([.upstreamFetch url],
       .ok { response := { status := 500, statusText := ""
                           headers := [], body := "Error fetching data from OpenAI" }
             cached := false })
    | .ok o =>
      let resp := withCacheControl o
      ([.upstreamFetch url, .cachePut key], .ok { response := resp, cached := false })

/-! ## Persistence (src/index.ts) -/

/-- The placeholder completion text written by the provisional insert. -/
def errorSentinel : String :=
  "❌ An Error Occured while trying to store the AI's response"

/-- Serialisation of a header map, standing in for
JSON.stringify(Object.fromEntries(headers.entries())); the exact text is
never inspected by the claims. -/
def headersJson (hs : List (String × String)) : String :=
  "\x7b" ++ String.intercalate ","
    (hs.map (fun p => "\"" ++ p.1 ++ "\":\"" ++ p.2 ++ "\"")) ++ "\x7d"

def escapeJsonChar (c : Char) : List Char :=
  if c = '"' then ['\\', '"']
  else if c = '\\' then ['\\', '\\']
  else if c = '\n' then ['\\', 'n']
  else if c = '\r' then ['\\', 'r']
  else if c = '\t' then ['\\', 't']
  else [c]

def escapeJson (s : String) : String :=
  String.mk (s.data.flatMap escapeJsonChar)

mutual

/-- JSON.stringify on a parsed JSON value. -/
def jsonStringify : Json → String
  | .null => "null"
  | .bool b => if b then "true" else "false"
  | .num l => l
  | .str s => "\"" ++ escapeJson s ++ "\""
  | .arr xs => "[" ++ jsonStringifyArr xs ++ "]"
  | .obj fs => "\x7b" ++ jsonStringifyObj fs ++ "\x7d"

def jsonStringifyArr : List Json → String
  | [] => ""
  | [x] => jsonStringify x
  | x :: xs => jsonStringify x ++ "," ++ jsonStringifyArr xs

def jsonStringifyObj : List (String × Json) → String
  | [] => ""
  | [p] => "\"" ++ escapeJson p.1 ++ "\":" ++ jsonStringify p.2
  | p :: ps => "\"" ++ escapeJson p.1 ++ "\":" ++ jsonStringify p.2 ++ "," ++ jsonStringifyObj ps

end

/-- One row of the "Request" table, with the columns touched by the two
queries of src/index.ts. -/
structure DbRow where
  id : String
  openai_id : String
  ip : String
  url : String
  method : String
  status : Nat
  request_headers : String
  request_body : String
  response_headers : String
  response_body : String
  streamed_response_body : Option String
  cached : Bool
  streamed : Bool
  user_id : String
  app_id : Option String
  prompt_tokens : Int
  completion_tokens : Int
  model : String
  completion : String
  userId : String
  createdAt : String
  updatedAt : String
deriving DecidableEq

/-- The string field j.k when it is a string field. -/
def jsonGetStr (j : Json) (k : String) : Option String :=
  match j.getField k with
  | some (.str s) => some s
  | _ => none

/-- body.model with the JavaScript || "" fallback (non-string truthy
values are string-coerced for the text column). -/
def modelOf (body : Json) : String :=
  match body.getField "model" with
  | some v => if jsFalsy v then "" else jsToString v
  | none => ""

/-- The row written by the provisional INSERT of saveInitialRequestToDb:
placeholder response fields, cached/streamed false, zero token counts and
the sentinel completion text. -/
def provisionalRow (newId url method : String) (headers : List (String × String))
    (body : Json) (userId ts : String) : DbRow :=
  { id := newId
    openai_id := ""
    ip := (hget headers "x-real-ip").getD ""
    url := url
    method := method
    status := 200
    request_headers := headersJson headers
    request_body := jsonStringify body
    response_headers := "\x7b\x7d"
    response_body := "\x7b\x7d"
    streamed_response_body := some "\x7b\x7d"
    cached := false
    streamed := false
    user_id := (hget headers "X-User-Id").getD ""
    app_id := none
    prompt_tokens := 0
    completion_tokens := 0
    model := modelOf body
    completion := errorSentinel
    userId := userId
    createdAt := ts
    updatedAt := ts }

/-- saveInitialRequestToDb: the provisional INSERT.  The database write
may fail (ok := false models a rejected query); a failure is rethrown to
the caller. -/
def saveInitialRequestToDb (ok : Bool) (db : List DbRow) (newId : String)
    (url method : String) (headers : List (String × String)) (body : Json)
    (userId ts : String) : Except Unit (List DbRow × String) :=
  if ok then
    .ok (db ++ [provisionalRow newId url method headers body userId ts], newId)
  else .error ()

/-- data?.choices[0].message.content, with the later
getTokenCount(completion) throw on a non-string result folded in: the
overall computation succeeds exactly when the chain yields a string. -/
def chatMessageContentOf (data : Option Json) : Except Unit String :=
  match data with
  | none => .error ()
  | some j =>
    match j.getField "choices" with
    | none => .error ()
    | some ch =>
      match ch.getIndex 0 with
      | none => .error ()
      | some c0 =>
        match c0.getField "message" with
        | none => .error ()
        | some m =>
          match m.getField "content" with
          | some (.str s) => .ok s
          | _ => .error ()

/-- data?.choices[0].text, folded with the downstream tokenizer throw as
above. -/
def textContentOf (data : Option Json) : Except Unit String :=
  match data with
  | none => .error ()
  | some j =>
    match j.getField "choices" with
    | none => .error ()
    | some ch =>
      match ch.getIndex 0 with
      | none => .error ()
      | some c0 =>
        match c0.getField "text" with
        | some (.str s) => .ok s
        | _ => .error ()

/-- getTokenCount(body?.prompt): the tokenizer throws unless the prompt
field is a string. -/
def promptOf (body : Json) : Except Unit String :=
  match body.getField "prompt" with
  | some (.str s) => .ok s
  | _ => .error ()

/-- One element of body.messages converted to the declared Message shape;
an element not matching the shape makes the tokenizer loop throw. -/
def messageOfJson (j : Json) : Option Message :=
  match j with
  | .obj _ =>
    match jsonGetStr j "role", jsonGetStr j "content" with
    | some r, some c =>
      some { role := r, content := c
             name := jsonGetStr j "name", function_call := jsonGetStr j "function_call" }
    | _, _ => none
  | _ => none

/-- body.messages as a Message list; a missing or non-array field makes
the for..of in numTokensFromMessages throw. -/
def messagesOfE (body : Json) : Except Unit (List Message) :=
  match body.getField "messages" with
  | some (.arr xs) =>
    match xs.mapM messageOfJson with
    | some ms => .ok ms
    | none => .error ()
  | _ => .error ()

/-- JSON.parse(streamed_data.split("\n\n")[0].replace("data: ", "")).id:
a malformed first frame throws; a missing id leaves the variable
undefined, stored here as the empty string. -/
def streamedIdOf (sd : String) : Except Unit String :=
  match parseJson (replaceFirst (String.mk (takeUntilDoubleNL sd.data)) "data: ") with
  | none => .error ()
  | some j => .ok ((jsonGetStr j "id").getD "")

def chatUrl : String := "https://api.openai.com/v1/chat/completions"

def completionsUrl : String := "https://api.openai.com/v1/completions"

/-- JSON.stringify(response.body): the body property of a cloned Response
is a ReadableStream object with no enumerable own properties, so the
serialisation is the empty object literal whatever the body bytes are. -/
def jsStringifyBody (_response : Response) : String := "\x7b\x7d"

/-- data?.id || "" used for the openai_id column in the buffered case. -/
def dataIdOf (data : Option Json) : String :=
  match data with
  | some j =>
    match j.getField "id" with
    | some v => if jsFalsy v then "" else jsToString v
    | none => ""
  | none => ""

/-- saveRequestToDb (src/index.ts): the terminal write.  The computations
before the try block (first-frame parse, completion extraction, token
counting) run unprotected, so their exceptions propagate (Except.error).
The UPDATE itself runs inside try/catch: a failed query (updateOk :=
false) is swallowed and leaves the table untouched, returning null.  The
UPDATE sets openai_id, response_body, streamed_response_body, streamed,
prompt_tokens, completion_tokens, completion, updatedAt and status on
every row whose id equals uuid; the cached argument is accepted but never
written.  JSON.stringify(response.body) serialises the ReadableStream
object, which has no enumerable properties. -/
def saveRequestToDb (tok : String → Int) (updateOk : Bool) (db : List DbRow)
    (uuid : String) (response : Response) (url : String) (body : Json)
    (cached streamed : Bool) (userId : String) (data : Option Json)
    (streamed_data : Option String) (status : Nat) (ts : String) :
    Except Unit (List DbRow × Option String) :=
  match (if streamed then
           match streamed_data with
           | none => Except.error ()
           | some sd => streamedIdOf sd
         else Except.ok "") with
  | .error e => .error e
  | .ok streamed_id =>
    match (if url = chatUrl then
             match (if streamed then
                      match streamed_data with
                      | none => Except.error ()
                      | some sd => getCompletionFromStream sd
                    else chatMessageContentOf data) with
             | .error e => .error e
             | .ok completion =>
               match messagesOfE body with
               | .error e => .error e
               | .ok msgs =>
                 match numTokensFromMessages tok msgs with
                 | .error e => .error e
                 | .ok pt => Except.ok (completion, pt, tok completion)
           else if url = completionsUrl then
             match textContentOf data with
             | .error e => .error e
             | .ok completion =>
               match promptOf body with
               | .error e => .error e
               | .ok pp => Except.ok (completion, tok pp, tok completion)
           else Except.ok ("", 0, 0) : Except Unit (String × Int × Int)) with
    | .error e => .error e
    | .ok r =>
      if updateOk then
        let openaiId := if streamed then streamed_id else dataIdOf data
        let db2 := db.map (fun row =>
          if row.id = uuid then
            { row with
              openai_id := openaiId
              response_body := jsStringifyBody response
              streamed_response_body := if streamed then streamed_data else none
              streamed := streamed
              prompt_tokens := r.2.1
              completion_tokens := r.2.2
              completion := r.1
              updatedAt := ts
              status := status }
          else row)
        .ok (db2, if db.any (fun row => row.id = uuid) then some uuid else none)
      else .ok (db, none)

/-! ## Orchestrator (the exported fetch handler of src/index.ts) -/

/-- parseRequest: a POST body is JSON.parsed (a SyntaxError propagates);
any other method gets the empty object. -/
def parseRequestM (req : Request) : Except Unit Json :=
  if req.method = "POST" then
    match parseJson req.bodyText with
    | some j => .ok j
    | none => .error ()
  else .ok (Json.obj [])

def apos : String := String.mk [Char.ofNat 39]

def resp401Missing : Response :=
  { status := 401, statusText := "", headers := []
    body := "\x7b\"error\":\"Missing API key in " ++ apos ++ "X-Api-Key" ++ apos ++
      " header. Go to https://llm.report/ to get an API key.\",\"message\":\"\"\x7d" }

def resp401User : Response :=
  { status := 401, statusText := "", headers := []
    body := "\x7b\"error\":\"User not found in database. Ensure your API key is correct.\",\"message\":\"\"\x7d" }

def resp405 : Response :=
  { status := 405, statusText := "", headers := [], body := "Only POST request allowed" }

/-- The 500 response for a failed provisional insert; the serialised
exception in the message field is abstracted to null. -/
def resp500SaveInitial : Response :=
  { status := 500, statusText := "", headers := []
    body := "\x7b\"error\":\"Error saving initial request to database. Contact support\",\"message\":null\x7d" }

structure FetchOut where
  ops : List Op
  outcome : Except Unit (Response × List DbRow)

/-- The exported fetch handler.  Platform capabilities and
nondeterministic outcomes are parameters: sha256 the digest, userFor the
ApiKey/User join keyed by hashed key, cache the cache-store lookup,
upstream the outbound fetch, tok the tokenizer, insertOk/updateOk the two
database writes' fates, newId the generated row uuid, ts the clock,
chunks the transport chunking of a streamed response body, db0 the
initial table.  The ops field lists side effects in program order; an
Except.error outcome models an exception escaping the handler.

Control flow follows the source: parseRequest runs before the API-key
presence check; the key is read from X-Api-Key with its "Bearer " prefix
stripped and a missing or empty key yields 401; an unknown user yields
401; a non-POST method yields 405; a failed provisional insert yields 500
without upstream contact; handleCaching receives the parsed body object,
string-coerced at the hashing boundary; body.stream === true selects the
streamed path, whose accumulated data is the concatenation of the chunks;
otherwise the response body is JSON.parsed (a rejection propagates) and
the buffered terminal write runs.  A failure inside the scheduled
saveRequestToDb is confined to ctx.waitUntil and leaves the table in its
post-insert state. -/
def workerFetch (sha256 : String → String) (userFor : String → Option String)
    (cache : String → Option Response) (upstream : UpstreamRequest → Except Unit Response)
    (tok : String → Int) (insertOk updateOk : Bool) (newId ts : String)
    (chunks : List String) (db0 : List DbRow) (req : Request) : FetchOut :=
  match parseRequestM req with
  | .error _ => { ops := [], outcome := .error () }
  | .ok body =>
    let url := getUrl req
    match (hget req.headers "X-Api-Key").map (fun s => replaceFirst s "Bearer ") with
    | none => { ops := [], outcome := .ok (resp401Missing, db0) }
    | some k =>
      if k = "" then { ops := [], outcome := .ok (resp401Missing, db0) }
      else
        match userFor (sha256 k) with
        | none => { ops := [], outcome := .ok (resp401User, db0) }
        | some userId =>
          if req.method ≠ "POST" then { ops := [], outcome := .ok (resp405, db0) }
          else
            match saveInitialRequestToDb insertOk db0 newId url req.method req.headers body userId ts with
            | .error _ => { ops := [.dbInsert newId], outcome := .ok (resp500SaveInitial, db0) }
            | .ok (db1, uuid) =>
              let hc := handleCaching sha256 cache upstream req (jsToString body) req.headers url
              match hc.2 with
              | .error _ => { ops := .dbInsert newId :: hc.1, outcome := .error () }
              | .ok hr =>
                match body.getField "stream" with
                | some (Json.bool true) =>
                  let fin := saveRequestToDb tok updateOk db1 uuid hr.response url body
                    hr.cached true userId none (some (String.join chunks)) hr.response.status ts
                  let db2 := match fin with | .ok p => p.1 | .error _ => db1
                  { ops := .dbInsert newId :: hc.1 ++ [.dbUpdate uuid]
                    outcome := .ok (hr.response, db2) }
                | _ =>
                  match parseJson hr.response.body with
                  | none => { ops := .dbInsert newId :: hc.1, outcome := .error () }
                  | some d =>
                    let fin := saveRequestToDb tok updateOk db1 uuid hr.response url body
                      hr.cached false userId (some d) none hr.response.status ts
                    let db2 := match fin with | .ok p => p.1 | .error _ => db1
                    { ops := .dbInsert newId :: hc.1 ++ [.dbUpdate uuid]
                      outcome := .ok (hr.response, db2) }

/-! ## Specification-side definition and concrete fixtures -/

/-- Specification-side restatement of the claimed countMessages contract,
written from the claim's words for comparison with the source-derived
numTokensFromMessages: sum over messages of a fixed per-message overhead
(3 for the newer chat-model families, 4 for the legacy
gpt-3.5-turbo-0301), plus the tokenized length of each present field
value, plus a per-name overhead (+1, or -1 for the legacy family) when a
name is present, plus a fixed +3 terminal overhead; an unknown identifier
containing a known family name falls back to that family's latest listed
variant (the 0613 models, which use the newer overheads); an identifier
matching no family fails. -/
def countMessagesSpec (tok : String → Int) (messages : List Message) (model : String) :
    Except Unit Int :=
  if model = "gpt-3.5-turbo-0301" then .ok (messagesTokenSum tok 4 (-1) messages)
  else if model ∈ chatModelsNewer then .ok (messagesTokenSum tok 3 1 messages)
  else if jsIncludes model "gpt-3.5-turbo" then .ok (messagesTokenSum tok 3 1 messages)
  else if jsIncludes model "gpt-4" then .ok (messagesTokenSum tok 3 1 messages)
  else .error ()

/-- The cache key actually derived for a request: the parsed body object
produced by parseRequest flows into handleCaching and is string-coerced
at the TextEncoder boundary inside the digest. -/
def requestCacheKey (sha256 : String → String) (req : Request) : Except Unit String :=
  (parseRequestM req).map
    (fun body => derivedCacheKeyUrl sha256 req.url (jsToString body) req.headers)

/-- Fixture: a POST chat request with a JSON object body. -/
def reqFix : Request :=
  { url := { origin := "https://worker.example", pathname := "/v1/chat/completions", search := "" }
    method := "POST"
    headers := [("X-Api-Key", "Bearer k1"), ("Authorization", "Bearer sk-upstream")]
    bodyText := "\x7b\"a\":1\x7d" }

/-- Fixture: same URL, byte-different JSON object body. -/
def reqFix2 : Request :=
  { reqFix with bodyText := "\x7b\"b\":2\x7d" }

/-- Fixture: a stream whose first retained frame is not JSON, followed by
a well-formed delta frame and the [DONE] trailer. -/
def c3badStream : String :=
  "data: oops\n\ndata: \x7b\"choices\":[\x7b\"delta\":\x7b\"content\":\"hi\"\x7d\x7d]\x7d\n\ndata: [DONE]\n\n"

/-- Fixture: a two-frame delta stream split mid-frame across two
transport chunks, with a [DONE] trailer. -/
def c3chunks : List String :=
  ["data: \x7b\"choices\":[\x7b\"delta\":\x7b\"con",
   "tent\":\"Hel\"\x7d\x7d]\x7d\ndata: \x7b\"choices\":[\x7b\"delta\":\x7b\"content\":\"lo\"\x7d\x7d]\x7d\ndata: [DONE]\n"]

/-- Fixture: a provisional row as inserted for a non-completions URL. -/
def c6row : DbRow :=
  provisionalRow "u1" "https://api.openai.com/v1/other" "POST" [] (Json.obj []) "user1" "T"

/-- Fixture: the row c6row after the terminal update of the C9 witness
call (status 201 at time T2, non-completions URL). -/
def c9row : DbRow :=
  { c6row with
    openai_id := ""
    response_body := "\x7b\x7d"
    streamed_response_body := none
    streamed := false
    prompt_tokens := 0
    completion_tokens := 0
    completion := ""
    updatedAt := "T2"
    status := 201 }

/-! ## Helper lemmas -/

theorem str_ext {s t : String} (h : s.data = t.data) : s = t :=
  congrArg String.mk h

theorem str_join_cons (c : String) (cs : List String) :
    String.join (c :: cs) = c ++ String.join cs := by
  apply str_ext
  simp [String.data_join]

theorem except_ok_bind {e a b : Type} (x : a) (f : a → Except e b) :
    (Except.ok x >>= f) = f x := rfl

theorem except_map_ok {e a b : Type} (f : a → b) (x : a) :
    Except.map f (Except.ok x : Except e a) = Except.ok (f x) := rfl

/-- Folding the frame parser over event strings that all parse
accumulates their contents in order. -/
theorem frames_foldlM (evs cs : List String) (acc : String)
    (h : List.Forall₂ (fun e c => frameContent (replaceFirst e "data: ") = Except.ok c) evs cs) :
    (evs.map String.data).foldlM
      (fun acc2 ev => (frameContent (String.mk (removeFirst "data: ".data ev))).map
        (fun c => acc2 ++ c)) acc = Except.ok (acc ++ String.join cs) := by
  induction h generalizing acc with
  | nil => simp [String.join, String.append_empty]; rfl
  | cons he htail ih =>
    rename_i e c evs2 cs2
    unfold replaceFirst at he
    rw [List.map_cons, List.foldlM_cons, he, except_map_ok, except_ok_bind]
    rw [ih, str_join_cons, ← String.append_assoc]

/-- handleCaching performs no database operation: its side effects are at
most the upstream fetch and the cache write. -/
theorem handleCaching_ops_shape (sha256 : String → String)
    (cache : String → Option Response) (upstream : UpstreamRequest → Except Unit Response)
    (req : Request) (body : String) (hdrs : List (String × String)) (url : String) :
    (handleCaching sha256 cache upstream req body hdrs url).1 = []
    ∨ (handleCaching sha256 cache upstream req body hdrs url).1 = [Op.upstreamFetch url]
    ∨ (handleCaching sha256 cache upstream req body hdrs url).1 =
        [Op.upstreamFetch url, Op.cachePut (derivedCacheKeyUrl sha256 req.url body hdrs)] := by
  unfold handleCaching
  dsimp only
  split
  · exact Or.inl rfl
  · split
    · exact Or.inr (Or.inl rfl)
    · exact Or.inr (Or.inr rfl)

/-- A terminal write whose UPDATE query fails (or whose preparatory
computation throws) leaves the table exactly as it was. -/
theorem saveRequestToDb_db_unchanged (tok : String → Int) (db : List DbRow) (uuid : String)
    (response : Response) (url : String) (body : Json) (cached streamed : Bool)
    (userId : String) (data : Option Json) (streamed_data : Option String)
    (status : Nat) (ts : String) :
    (match saveRequestToDb tok false db uuid response url body cached streamed userId
        data streamed_data status ts with
     | .ok p => p.1
     | .error _ => db) = db := by
  unfold saveRequestToDb
  split
  · rename_i p heq
    split at heq
    · simp at heq
    · split at heq
      · simp at heq
      · injection heq with h
        rw [← h]
  · rfl

/-! ## Claim theorems -/

/-- C1: for every accepted request whose response resolves (the stream
completes, or the buffered body parses), the handler schedules exactly
one terminal update, and it targets exactly the provisional row created
for that request; if the terminal update fails, the table still holds the
provisional row unchanged, with its sentinel completion text. -/
theorem c1_exactly_one_terminal_update (sha256 : String → String)
    (userFor : String → Option String)
    (cache : String → Option Response) (upstream : UpstreamRequest → Except Unit Response)
    (tok : String → Int) (updateOk : Bool) (newId ts : String) (chunks : List String)
    (db0 : List DbRow) (req : Request) (body : Json) (k userId : String) (hr : HandleRes)
    (hBody : parseRequestM req = .ok body)
    (hKey : (hget req.headers "X-Api-Key").map (fun s => replaceFirst s "Bearer ") = some k)
    (hk : k ≠ "")
    (hUser : userFor (sha256 k) = some userId)
    (hPost : req.method = "POST")
    (hHc : (handleCaching sha256 cache upstream req (jsToString body) req.headers (getUrl req)).2
      = .ok hr)
    (hResolved : body.getField "stream" = some (Json.bool true)
      ∨ (∃ d, parseJson hr.response.body = some d)) :
    ((workerFetch sha256 userFor cache upstream tok true updateOk newId ts chunks db0 req).ops.count
        (Op.dbUpdate newId) = 1
     ∧ ∀ u, Op.dbUpdate u ∈
        (workerFetch sha256 userFor cache upstream tok true updateOk newId ts chunks db0 req).ops
        → u = newId)
    ∧ (updateOk = false →
        (workerFetch sha256 userFor cache upstream tok true updateOk newId ts chunks db0 req).outcome
          = .ok (hr.response,
              db0 ++ [provisionalRow newId (getUrl req) req.method req.headers body userId ts])
        ∧ (provisionalRow newId (getUrl req) req.method req.headers body userId ts).completion
            = errorSentinel) := by
  unfold workerFetch
  simp only [hBody, hKey, if_neg hk, hUser, hPost, ne_eq, not_true_eq_false, if_false,
    ite_false, saveInitialRequestToDb, if_true, ite_true, hHc]
  split
  · rcases handleCaching_ops_shape sha256 cache upstream req (jsToString body) req.headers
      (getUrl req) with hO | hO | hO <;>
      rw [hO] <;>
      refine ⟨⟨by simp [List.count_cons, List.count_append], fun u hu => by simp at hu; exact hu⟩,
        fun hU => by subst hU; rw [saveRequestToDb_db_unchanged]; exact ⟨rfl, rfl⟩⟩
  · rename_i x hno
    rcases hResolved with hS | ⟨d, hd⟩
    · exact absurd hS hno
    · simp only [hd]
      rcases handleCaching_ops_shape sha256 cache upstream req (jsToString body) req.headers
        (getUrl req) with hO | hO | hO <;>
        rw [hO] <;>
        refine ⟨⟨by simp [List.count_cons, List.count_append], fun u hu => by simp at hu; exact hu⟩,
          fun hU => by subst hU; rw [saveRequestToDb_db_unchanged]; exact ⟨rfl, rfl⟩⟩

/-- Witness for C1 at a concrete buffered request with a failing terminal
update. -/
theorem c1_terminal_update_witness :
    ((workerFetch (fun s => s) (fun _ => some "user1") (fun _ => none)
        (fun _ => Except.ok { status := 200, statusText := "", headers := [], body := "\x7b\x7d" })
        (fun s => (s.length : Int)) true false "u1" "T" [] [] reqFix).ops.count
        (Op.dbUpdate "u1") = 1
     ∧ ∀ u, Op.dbUpdate u ∈
        (workerFetch (fun s => s) (fun _ => some "user1") (fun _ => none)
          (fun _ => Except.ok { status := 200, statusText := "", headers := [], body := "\x7b\x7d" })
          (fun s => (s.length : Int)) true false "u1" "T" [] [] reqFix).ops
        → u = "u1")
    ∧ (false = false →
        (workerFetch (fun s => s) (fun _ => some "user1") (fun _ => none)
          (fun _ => Except.ok { status := 200, statusText := "", headers := [], body := "\x7b\x7d" })
          (fun s => (s.length : Int)) true false "u1" "T" [] [] reqFix).outcome
          = .ok (({ response := { status := 200, statusText := ""
                                  headers := [("cache-control", "public, max-age=2592000")]
                                  body := "\x7b\x7d" }
                    cached := false } : HandleRes).response,
              [] ++ [provisionalRow "u1" (getUrl reqFix) reqFix.method reqFix.headers
                (Json.obj [("a", Json.num "1")]) "user1" "T"])
        ∧ (provisionalRow "u1" (getUrl reqFix) reqFix.method reqFix.headers
            (Json.obj [("a", Json.num "1")]) "user1" "T").completion = errorSentinel) :=
  c1_exactly_one_terminal_update (fun s => s) (fun _ => some "user1") (fun _ => none)
    (fun _ => Except.ok { status := 200, statusText := "", headers := [], body := "\x7b\x7d" })
    (fun s => (s.length : Int)) false "u1" "T" [] [] reqFix
    (Json.obj [("a", Json.num "1")]) "k1" "user1"
    { response := { status := 200, statusText := ""
                    headers := [("cache-control", "public, max-age=2592000")]
                    body := "\x7b\x7d" }
      cached := false }
    rfl rfl (by decide) rfl rfl rfl (Or.inr ⟨Json.obj [], rfl⟩)

/-- C2: contrary to the claim, cache-key derivation is not a function of
the body bytes: the parsed body object is coerced by TextEncoder to the
constant text "[object Object]" before hashing, so two requests to the
same URL with byte-different JSON object bodies (and hence different
body digests under any collision-free hash) derive the same cache key,
for every digest function. -/
theorem c2_cache_key_collision : ∀ sha256 : String → String,
    requestCacheKey sha256 reqFix = requestCacheKey sha256 reqFix2
    ∧ reqFix.bodyText ≠ reqFix2.bodyText := by
  intro sha256
  exact ⟨rfl, by decide⟩

/-- C3 counterexample: a stream containing a malformed retained frame
("data: oops") followed by a well-formed delta frame makes
getCompletionFromStream throw instead of skipping the malformed frame
and returning the well-formed frame's content. -/
theorem c3_malformed_frame_aborts :
    getCompletionFromStream c3badStream = Except.error () := rfl

/-- C3 amended: however the upstream bytes are split into transport
chunks, the accumulated data is their concatenation, so the result is
chunk-boundary independent; when every nonempty line of the stream
except the last parses as a chat-delta frame after stripping its first
"data: " occurrence, the accumulated completion is the in-order
concatenation of their delta contents.  The final line is always
discarded, and (per the counterexample) a retained frame that fails to
parse aborts capture instead of being skipped. -/
theorem c3_stream_accumulation (chunks : List String) (evs cs : List String) (lastEv : String)
    (hLines : (splitChar '\n' (String.join chunks).data).filter (fun e => 0 < e.length) =
      evs.map String.data ++ [lastEv.data])
    (hParse : List.Forall₂
      (fun e c => frameContent (replaceFirst e "data: ") = Except.ok c) evs cs) :
    getCompletionFromStream (String.join chunks) = .ok (String.join cs) := by
  have hne : String.join chunks ≠ "" := by
    intro h
    rw [h] at hLines
    simp [splitChar] at hLines
  unfold getCompletionFromStream
  rw [if_neg hne, hLines, List.dropLast_concat]
  rw [frames_foldlM evs cs "" hParse]
  rw [String.empty_append]

/-- Witness for C3 at a concrete stream split mid-frame across two
transport chunks. -/
theorem c3_stream_accumulation_witness :
    getCompletionFromStream (String.join c3chunks) = .ok (String.join ["Hel", "lo"]) :=
  c3_stream_accumulation c3chunks
    ["data: \x7b\"choices\":[\x7b\"delta\":\x7b\"content\":\"Hel\"\x7d\x7d]\x7d",
     "data: \x7b\"choices\":[\x7b\"delta\":\x7b\"content\":\"lo\"\x7d\x7d]\x7d"]
    ["Hel", "lo"] "data: [DONE]" (by decide)
    (List.Forall₂.cons rfl (List.Forall₂.cons rfl List.Forall₂.nil))

/-- C4 counterexample: with an empty cache and an upstream transport
error, the current handleCaching does not return a synthetic 500
response; the exception escapes it (and thence the fetch handler, which
does not guard the call). -/
theorem c4_transport_error_escapes :
    (handleCaching (fun s => s) (fun _ => none) (fun _ => .error ())
      reqFix "[object Object]" reqFix.headers (getUrl reqFix)).2 = Except.error () := rfl

/-- C4 amended: on a cache miss with an upstream transport error, neither
variant writes a cache entry; the current handleCaching (src/index.ts)
propagates the exception past the orchestrator boundary, while the
sibling variant (src/unnamed/part_001) returns a synthetic 500 response
with cached := false and raises nothing. -/
theorem c4_upstream_transport_failure (sha256 : String → String)
    (cache : String → Option Response) (upstream : UpstreamRequest → Except Unit Response)
    (req : Request) (body : String) (hdrs : List (String × String)) (url : String)
    (hMiss : cache (derivedCacheKeyUrl sha256 req.url body hdrs) = none)
    (hErr : upstream (forwardedRequest req url) = .error ()) :
    handleCaching sha256 cache upstream req body hdrs url =
      ([.upstreamFetch url], .error ())
    ∧ handleCachingV1 sha256 cache upstream req body hdrs url =
      ([.upstreamFetch url],
       .ok { response := { status := 500, statusText := "", headers := []
                           body := "Error fetching data from OpenAI" }
             cached := false }) := by
  constructor
  · simp only [handleCaching, hMiss, hErr]
  · simp only [handleCachingV1, hMiss, hErr]

/-- Witness for C4 at a concrete request. -/
theorem c4_upstream_transport_failure_witness :
    handleCaching (fun s => s) (fun _ => none) (fun _ => .error ())
      reqFix "[object Object]" reqFix.headers "https://api.openai.com/v1/chat/completions" =
      ([.upstreamFetch "https://api.openai.com/v1/chat/completions"], .error ()) :=
  (c4_upstream_transport_failure (fun s => s) (fun _ => none) (fun _ => .error ())
    reqFix "[object Object]" reqFix.headers _ rfl rfl).1

/-- C5: numTokensFromMessages computes exactly the claimed formula: per
message the family overhead (3 newer, 4 for gpt-3.5-turbo-0301) plus the
tokenized length of each present field value plus the per-name overhead
(+1, or -1 for the legacy family), plus the +3 terminal overhead;
unlisted identifiers containing a family name fall back to that family's
0613 variant, and identifiers matching no family fail. -/
theorem c5_count_messages_formula (tok : String → Int) (messages : List Message)
    (model : String) :
    numTokensFromMessages tok messages model = countMessagesSpec tok messages model := by
  unfold countMessagesSpec
  rw [numTokensFromMessages]
  by_cases h1 : model ∈ chatModelsNewer
  · have h2 : model ≠ "gpt-3.5-turbo-0301" := by
      intro h
      rw [h] at h1
      exact absurd h1 (by decide)
    simp [h1, h2]
  · by_cases h2 : model = "gpt-3.5-turbo-0301"
    · simp [h1, h2, show ("gpt-3.5-turbo-0301" : String) ∉ chatModelsNewer from by decide]
    · by_cases h3 : jsIncludes model "gpt-3.5-turbo"
      · simp only [if_neg h1, if_neg h2, if_pos h3]
        rw [numTokensFromMessages]
        simp [show ("gpt-3.5-turbo-0613" : String) ∈ chatModelsNewer from by decide]
      · by_cases h4 : jsIncludes model "gpt-4"
        · simp only [if_neg h1, if_neg h2, if_neg h3, if_pos h4]
          rw [numTokensFromMessages]
          simp [show ("gpt-4-0613" : String) ∈ chatModelsNewer from by decide]
        · simp [h1, h2, h3, h4]

/-- C6: the terminal UPDATE invoked with cacheHit := true does update the
row identified by the record id (status and updatedAt change), but it
never writes the cached column, which keeps its provisional value false:
the cached argument of saveRequestToDb is accepted and discarded. -/
theorem c6_cached_flag_not_persisted :
    (saveRequestToDb (fun s => (s.length : Int)) true [c6row] "u1"
        { status := 201, statusText := "", headers := [], body := "\x7b\x7d" }
        "https://api.openai.com/v1/other" (Json.obj []) true false "user1"
        (some (Json.obj [])) none 201 "T2").map
      (fun p => (p.2, p.1.map (fun row => (row.cached, row.status, row.updatedAt)))) =
    .ok (some "u1", [(false, 201, "T2")]) := rfl

/-- C7: on a cache miss the forwarded request targets the upstream host
plus the original path and query, keeps the original method and body,
and carries exactly the three headers Content-Type, Authorization and
X-Api-Key — no other header of the original request — and handleCaching
resolves by applying the upstream fetch capability to exactly that
request. -/
theorem c7_forwarded_request (sha256 : String → String)
    (cache : String → Option Response) (upstream : UpstreamRequest → Except Unit Response)
    (req : Request) (body : String) (hdrs : List (String × String))
    (hMiss : cache (derivedCacheKeyUrl sha256 req.url body hdrs) = none) :
    (forwardedRequest req (getUrl req)).url =
        "https://api.openai.com" ++ req.url.pathname ++ req.url.search
    ∧ (forwardedRequest req (getUrl req)).method = req.method
    ∧ (forwardedRequest req (getUrl req)).body = req.bodyText
    ∧ (forwardedRequest req (getUrl req)).headers =
        [("Content-Type", "application/json"),
         ("Authorization", (hget req.headers "Authorization").getD "null"),
         ("X-Api-Key", (hget req.headers "X-Api-Key").getD "null")]
    ∧ (forwardedRequest req (getUrl req)).headers.map Prod.fst =
        ["Content-Type", "Authorization", "X-Api-Key"]
    ∧ handleCaching sha256 cache upstream req body hdrs (getUrl req) =
        (match upstream (forwardedRequest req (getUrl req)) with
         | .error e => ([.upstreamFetch (getUrl req)], .error e)
         | .ok o =>
           ([.upstreamFetch (getUrl req), .cachePut (derivedCacheKeyUrl sha256 req.url body hdrs)],
            .ok { response := withCacheControl o, cached := false })) := by
  refine ⟨rfl, rfl, rfl, rfl, rfl, ?_⟩
  simp only [handleCaching, hMiss]

/-- Witness for C7 at a concrete request. -/
theorem c7_forwarded_request_witness :
    (forwardedRequest reqFix (getUrl reqFix)).headers.map Prod.fst =
      ["Content-Type", "Authorization", "X-Api-Key"] :=
  (c7_forwarded_request (fun s => s) (fun _ => none) (fun _ => .error ())
    reqFix "[object Object]" reqFix.headers rfl).2.2.2.2.1

/-- C8: for an accepted request the side-effect trace always begins with
the provisional insert, and if the provisional insert fails the handler
returns the 500 response with the table untouched and no upstream fetch
ever appears in the trace. -/
theorem c8_provisional_before_upstream (sha256 : String → String)
    (userFor : String → Option String)
    (cache : String → Option Response) (upstream : UpstreamRequest → Except Unit Response)
    (tok : String → Int) (insertOk updateOk : Bool) (newId ts : String) (chunks : List String)
    (db0 : List DbRow) (req : Request) (body : Json) (k userId : String)
    (hBody : parseRequestM req = .ok body)
    (hKey : (hget req.headers "X-Api-Key").map (fun s => replaceFirst s "Bearer ") = some k)
    (hk : k ≠ "")
    (hUser : userFor (sha256 k) = some userId)
    (hPost : req.method = "POST") :
    (insertOk = false →
      workerFetch sha256 userFor cache upstream tok insertOk updateOk newId ts chunks db0 req =
        { ops := [Op.dbInsert newId], outcome := .ok (resp500SaveInitial, db0) }
      ∧ resp500SaveInitial.status = 500)
    ∧ (workerFetch sha256 userFor cache upstream tok insertOk updateOk newId ts
        chunks db0 req).ops.head? = some (Op.dbInsert newId) := by
  cases insertOk with
  | false =>
    unfold workerFetch
    simp only [hBody, hKey, if_neg hk, hUser, hPost, ne_eq, not_true_eq_false, if_false,
      ite_false, saveInitialRequestToDb, Bool.false_eq_true]
    exact ⟨fun _ => ⟨trivial, rfl⟩, rfl⟩
  | true =>
    constructor
    · intro h
      exact absurd h (by decide)
    · unfold workerFetch
      simp only [hBody, hKey, if_neg hk, hUser, hPost, ne_eq, not_true_eq_false, if_false,
        ite_false, saveInitialRequestToDb, if_true, ite_true]
      split
      · rfl
      · split
        · rfl
        · split
          · rfl
          · rfl

/-- Witness for C8 at a concrete request whose provisional insert fails. -/
theorem c8_provisional_before_upstream_witness :
    workerFetch (fun s => s) (fun _ => some "user1") (fun _ => none)
        (fun _ => Except.ok { status := 200, statusText := "", headers := [], body := "\x7b\x7d" })
        (fun s => (s.length : Int)) false true "u1" "T" [] [] reqFix =
      { ops := [Op.dbInsert "u1"], outcome := .ok (resp500SaveInitial, []) } :=
  ((c8_provisional_before_upstream (fun s => s) (fun _ => some "user1") (fun _ => none)
    (fun _ => Except.ok { status := 200, statusText := "", headers := [], body := "\x7b\x7d" })
    (fun s => (s.length : Int)) false true "u1" "T" [] [] reqFix
    (Json.obj [("a", Json.num "1")]) "k1" "user1"
    rfl rfl (by decide) rfl rfl).1 rfl).1

/-- C9: a terminal update that completes for a URL other than the chat
or text completions endpoints records zero prompt tokens, zero completion
tokens and an empty completion text on the updated row. -/
theorem c9_no_tokens_other_endpoints (tok : String → Int) (updateOk : Bool)
    (db : List DbRow) (uuid : String)
    (response : Response) (url : String) (body : Json) (cached streamed : Bool)
    (userId : String) (data : Option Json) (streamed_data : Option String)
    (status : Nat) (ts : String) (db2 : List DbRow) (rid : String)
    (hUrl1 : url ≠ chatUrl) (hUrl2 : url ≠ completionsUrl)
    (hFin : saveRequestToDb tok updateOk db uuid response url body cached streamed userId
      data streamed_data status ts = .ok (db2, some rid)) :
    ∀ row ∈ db2, row.id = uuid →
      row.prompt_tokens = 0 ∧ row.completion_tokens = 0 ∧ row.completion = "" := by
  unfold saveRequestToDb at hFin
  rw [if_neg hUrl1, if_neg hUrl2] at hFin
  rcases hSid : (if streamed then
      match streamed_data with
      | none => Except.error ()
      | some sd => streamedIdOf sd
    else Except.ok "") with e | sid
  · rw [hSid] at hFin
    simp at hFin
  · rw [hSid] at hFin
    cases updateOk with
    | false => simp at hFin
    | true =>
      simp at hFin
      intro row hmem hid
      rw [← hFin.1] at hmem
      rcases List.mem_map.mp hmem with ⟨orig, horig, hrw⟩
      by_cases hcase : orig.id = uuid
      · rw [if_pos hcase] at hrw
        rw [← hrw]
        exact ⟨rfl, rfl, rfl⟩
      · rw [if_neg hcase] at hrw
        rw [← hrw] at hid
        exact absurd hid hcase

/-- Witness for C9 at a concrete finalize call against a non-completions
endpoint. -/
theorem c9_no_tokens_other_endpoints_witness :
    c9row.prompt_tokens = 0 ∧ c9row.completion_tokens = 0 ∧ c9row.completion = "" :=
  c9_no_tokens_other_endpoints (fun s => (s.length : Int)) true [c6row] "u1"
    { status := 201, statusText := "", headers := [], body := "\x7b\x7d" }
    "https://api.openai.com/v1/other" (Json.obj []) true false "user1"
    (some (Json.obj [])) none 201 "T2" [c9row] "u1"
    (by decide) (by decide) rfl c9row (by simp) rfl

/-- C10: a POST whose body is not parseable as JSON makes parseRequest
throw before the API-key presence check, so the handler returns none of
the specified 401/405/500 responses and performs no side effect: valid
JSON is an implicit precondition of the pipeline. -/
theorem c10_unparseable_post_body (sha256 : String → String)
    (userFor : String → Option String) (cache : String → Option Response)
    (upstream : UpstreamRequest → Except Unit Response) (tok : String → Int)
    (insertOk updateOk : Bool) (newId ts : String) (chunks : List String)
    (db0 : List DbRow) (req : Request)
    (hPost : req.method = "POST") (hBad : parseJson req.bodyText = none) :
    workerFetch sha256 userFor cache upstream tok insertOk updateOk newId ts chunks db0 req =
      { ops := [], outcome := .error () } := by
  unfold workerFetch parseRequestM
  simp [hPost, hBad]

/-- Witness for C10 at a concrete non-JSON POST body. -/
theorem c10_unparseable_post_body_witness :
    workerFetch (fun s => s) (fun _ => none) (fun _ => none) (fun _ => .error ())
      (fun _ => 0) true true "u1" "T" [] [] { reqFix with bodyText := "not json" } =
      { ops := [], outcome := .error () } :=
  c10_unparseable_post_body _ _ _ _ _ _ _ _ _ _ _ _ rfl rfl
